import Mathlib

/-!
Shallow embedding of the telemetry sampling and health-analysis pipeline
(collector.py and predictor.py) together with theorems checking the
natural-language specification against it.

Modelling conventions:
* Python floats are modelled by exact rationals; a float value that may be
  NaN or None is modelled by `Option ℚ` (with `none` for NaN/None), and every
  comparison against a `none` value evaluates to `false`, matching IEEE NaN
  comparison semantics and the behaviour of `float(None)` raising.
* A function that writes a point to the store is modelled as returning
  `Option point`: `some p` means exactly one point `p` was appended to the
  series, `none` means nothing was written.
-/

namespace Infra

/-- One `psutil.net_io_counters()` snapshot: cumulative non-negative OS
counters read at an instant. -/
structure NetIOCounters where
  bytes_sent : ℕ
  bytes_recv : ℕ
  packets_sent : ℕ
  packets_recv : ℕ
  errin : ℕ
  errout : ℕ
deriving Repr, DecidableEq

/-- The dict returned by the success path of `get_network_stats` in
collector.py. -/
structure NetworkStats where
  download_speed : ℚ
  upload_speed : ℚ
  packets_sent : ℤ
  packets_recv : ℤ
  errors_in : ℤ
  errors_out : ℤ
deriving Repr, DecidableEq

/-- The sampling interval between the two counter reads in
`get_network_stats`: the code executes `time.sleep(1)`, so the interval is
hard-coded to one second. -/
def MEASUREMENT_INTERVAL : ℚ := 1

/-- Success path of `get_network_stats` (collector.py, lines 63-101): given
the first and second counter snapshots, compute the rates in Mbps as
`(new_bytes - old_bytes) * 8 / 1_000_000` and report the packet and error
fields as the raw cumulative totals of the second snapshot. -/
def get_network_stats (first second : NetIOCounters) : NetworkStats :=
  { download_speed := ((second.bytes_recv : ℚ) - (first.bytes_recv : ℚ)) * 8 / 1000000
  , upload_speed := ((second.bytes_sent : ℚ) - (first.bytes_sent : ℚ)) * 8 / 1000000
  , packets_sent := (second.packets_sent : ℤ)
  , packets_recv := (second.packets_recv : ℤ)
  , errors_in := (second.errin : ℤ)
  , errors_out := (second.errout : ℤ) }

/-- The stats dict at the write boundary: `main` executes
`network_stats["latency"] = get_latency()` before calling
`write_to_influxdb`, and `get_latency` returns `None` on connect failure or
timeout, so the latency entry is an `Option ℚ`. -/
structure StatsRecord where
  download_speed : ℚ
  upload_speed : ℚ
  packets_sent : ℤ
  packets_recv : ℤ
  errors_in : ℤ
  errors_out : ℤ
  latency : Option ℚ
deriving Repr, DecidableEq

/-- Step of `main` mutating the stats dict with the latency probe result. -/
def assemble (ns : NetworkStats) (lat : Option ℚ) : StatsRecord :=
  { download_speed := ns.download_speed
  , upload_speed := ns.upload_speed
  , packets_sent := ns.packets_sent
  , packets_recv := ns.packets_recv
  , errors_in := ns.errors_in
  , errors_out := ns.errors_out
  , latency := lat }

/-- A point of the `network_metrics` series as built by `write_to_influxdb`:
every field call succeeded, in particular `float(stats["latency"])`, so the
latency field is a plain number. -/
structure NetworkPoint where
  download_speed : ℚ
  upload_speed : ℚ
  packets_sent : ℤ
  packets_recv : ℤ
  errors_in : ℤ
  errors_out : ℤ
  latency : ℚ
deriving Repr, DecidableEq

/-- Embedding of `write_to_influxdb` (collector.py, lines 103-125). The validation
`if stats["download_speed"] < 0 or stats["upload_speed"] < 0 or
stats["packets_sent"] < 0 or stats["packets_recv"] < 0: return` drops the
record before any point is built. Otherwise the point is built field by
field; `float(stats["latency"])` raises `TypeError` when the latency entry
is `None`, the surrounding `except` swallows the exception and nothing is
written, which the embedding renders as `none` in the `none` latency case. -/
def write_to_influxdb (stats : StatsRecord) : Option NetworkPoint :=
  if stats.download_speed < 0 ∨ stats.upload_speed < 0 ∨
      stats.packets_sent < 0 ∨ stats.packets_recv < 0 then
    none
  else
    match stats.latency with
    | none => none
    | some l =>
        some { download_speed := stats.download_speed
             , upload_speed := stats.upload_speed
             , packets_sent := stats.packets_sent
             , packets_recv := stats.packets_recv
             , errors_in := stats.errors_in
             , errors_out := stats.errors_out
             , latency := l }

/-- Outcome of one iteration of the `while True` loop in `main`
(collector.py, lines 127-146). -/
inductive TickOutcome where
  /-- Outcome: exactly this point was appended to `network_metrics` and the loop
  continues with the next tick. -/
  | wrote : NetworkPoint → TickOutcome
  /-- Outcome: nothing was appended and the loop continues with the next tick. -/
  | skipped : TickOutcome
  /-- Outcome: an exception escaped the loop body: it is caught by the `except`
  around the `while` loop, so the loop terminates and `main` returns. -/
  | loop_exit : TickOutcome
deriving Repr, DecidableEq

/-- One iteration of the collector loop in `main`. `sample_result` is what
`get_network_stats()` returned (`none` models the `None` returned when the
OS counter query raised); `probe_result` is what `get_latency()` returned.
The body executes `network_stats["latency"] = get_latency()` first: when
`network_stats` is `None` that item assignment raises `TypeError`, which is
not caught inside the loop body, so the `while` loop terminates. Otherwise
the dict is non-empty, hence truthy, and `write_to_influxdb` runs. -/
def collector_tick (sample_result : Option NetworkStats) (probe_result : Option ℚ) :
    TickOutcome :=
  match sample_result with
  | none => TickOutcome.loop_exit
  | some ns =>
      match write_to_influxdb (assemble ns probe_result) with
      | some p => TickOutcome.wrote p
      | none => TickOutcome.skipped

/-- One row of the pivoted DataFrame read back by the analyzer
(predictor.py): the hour-of-day of the `_time` column together with the
`upload_speed` and `latency` columns, each possibly NaN. Rows are in
chronological order. -/
structure MetricRow where
  time_hour : ℕ
  upload_speed : Option ℚ
  latency : Option ℚ
deriving Repr, DecidableEq

/-- The per-metric entry of the dict built by `calculate_averages`.
`stdSq_5min` holds the SQUARE of the pandas `.std()` value, i.e. the
Bessel-corrected sample variance (`ddof = 1`); this keeps the embedding in
exact rational arithmetic, and `std = Real.sqrt stdSq` since the sample
standard deviation is the non-negative square root of the sample variance.
`none` models NaN. -/
structure MetricStats where
  current : Option ℚ
  avg_5min : Option ℚ
  stdSq_5min : Option ℚ
deriving Repr, DecidableEq

/-- The non-missing values of a column, in order: pandas reductions such as
`.mean()` and `.std()` skip NaN entries. -/
def nonMissing (vals : List (Option ℚ)) : List ℚ := vals.filterMap id

/-- Embedding of pandas `Series.mean()`: arithmetic mean over the non-missing values,
NaN when there are none. -/
def seriesMean (vals : List (Option ℚ)) : Option ℚ :=
  let xs := nonMissing vals
  if xs.length = 0 then none else some (xs.sum / (xs.length : ℚ))

/-- The square of pandas `Series.std()` (default `ddof = 1`): the
Bessel-corrected sample variance over the non-missing values, NaN when
fewer than 2 values are present. -/
def seriesStdSq (vals : List (Option ℚ)) : Option ℚ :=
  let xs := nonMissing vals
  if xs.length < 2 then none
  else some ((xs.map (fun x => (x - xs.sum / (xs.length : ℚ)) ^ 2)).sum /
      ((xs.length : ℚ) - 1))

/-- Embedding of pandas `Series.iloc[-1]`: the value on the chronologically last row
(itself possibly NaN). Only reached on a non-empty DataFrame. -/
def seriesLast (vals : List (Option ℚ)) : Option ℚ := (vals.getLast?).getD none

/-- The dict returned by `calculate_averages`: one `MetricStats` per tracked
metric. -/
structure StatsDict where
  upload_speed : MetricStats
  latency : MetricStats
deriving Repr, DecidableEq

/-- Embedding of `calculate_averages` (predictor.py, lines 77-90): for each of
`upload_speed` and `latency`, `current = iloc[-1]`, `avg_5min = .mean()`,
and the std entry as its square (see `MetricStats`). -/
def calculate_averages (data : List MetricRow) : StatsDict :=
  { upload_speed :=
      { current := seriesLast (data.map MetricRow.upload_speed)
      , avg_5min := seriesMean (data.map MetricRow.upload_speed)
      , stdSq_5min := seriesStdSq (data.map MetricRow.upload_speed) }
  , latency :=
      { current := seriesLast (data.map MetricRow.latency)
      , avg_5min := seriesMean (data.map MetricRow.latency)
      , stdSq_5min := seriesStdSq (data.map MetricRow.latency) } }

/-- The per-metric test `abs(current - mean) > 2 * std` from
`detect_simple_anomalies`. In exact arithmetic, for a non-negative variance
`v` with `std = Real.sqrt v`, the test `|c - m| > 2 * std` holds iff
`(c - m) ^ 2 > 4 * v` (lemma `two_sqrt_lt_abs_iff` below), which is the
decidable rational form used here. When any of the three values is NaN the
float comparison evaluates to False. -/
def metric_anomalous (s : MetricStats) : Bool :=
  match s.current, s.avg_5min, s.stdSq_5min with
  | some c, some m, some v => decide (4 * v < (c - m) ^ 2)
  | _, _, _ => false

/-- Embedding of `detect_simple_anomalies` (predictor.py, lines 92-102): loops over
`upload_speed` and `latency` and returns True as soon as one metric passes
the two-standard-deviations test, i.e. the logical OR of the per-metric
tests. -/
def detect_simple_anomalies (stats : StatsDict) : Bool :=
  metric_anomalous stats.upload_speed || metric_anomalous stats.latency

/-- One row of the threshold tables in `SimpleServerMonitor.__init__`. -/
structure CutoffRow where
  optimal : ℚ
  warning : ℚ
  critical : ℚ
deriving Repr, DecidableEq

/-- Table `self.thresholds["upload"]["peak"]`. -/
def upload_peak : CutoffRow := { optimal := 75 / 100, warning := 50 / 100, critical := 25 / 100 }

/-- Table `self.thresholds["upload"]["off_peak"]`. -/
def upload_off_peak : CutoffRow := { optimal := 85 / 100, warning := 60 / 100, critical := 35 / 100 }

/-- Table `self.thresholds["latency"]["peak"]`. -/
def latency_peak : CutoffRow := { optimal := 30, warning := 50, critical := 100 }

/-- Table `self.thresholds["latency"]["off_peak"]`. -/
def latency_off_peak : CutoffRow := { optimal := 20, warning := 40, critical := 80 }

/-- Test `current_hour in self.thresholds["peak_hours"]` where
`peak_hours = range(9, 18)`: membership in a Python `range(9, 18)` is
`9 <= h < 18`. -/
def peak_hours (h : ℕ) : Bool := decide (9 ≤ h ∧ h < 18)

/-- Float comparison `y <= x` where `x` may be NaN: False on NaN. -/
def geFloat (x : Option ℚ) (y : ℚ) : Bool :=
  match x with
  | some v => decide (y ≤ v)
  | none => false

/-- Float comparison `x <= y` where `x` may be NaN: False on NaN. -/
def leFloat (x : Option ℚ) (y : ℚ) : Bool :=
  match x with
  | some v => decide (v ≤ y)
  | none => false

/-- The dict returned by `analyze_server_health`. -/
structure HealthAnalysis where
  status : String
  health_score : ℚ
  is_peak_hour : Bool
deriving Repr, DecidableEq

/-- Embedding of `analyze_server_health` (predictor.py, lines 104-146).
`current_hour` is the hour of `current_data["_time"].iloc[-1]`, the
chronologically last row of the window (on an empty window `iloc[-1]`
raises, modelled as `none`; the caller never reaches this case). The
matching peak or off-peak cutoff rows are selected, the score is
accumulated additively starting from `0.0` (`+0.4 / +0.2` on upload,
`+0.6 / +0.3` on latency), and the status comes from the fixed breakpoints
`0.8 / 0.5 / 0.3`. -/
def analyze_server_health (current_data : List MetricRow) (stats : StatsDict) :
    Option HealthAnalysis :=
  match current_data.getLast? with
  | none => none
  | some row =>
      let is_peak := peak_hours row.time_hour
      let u_th := if is_peak then upload_peak else upload_off_peak
      let l_th := if is_peak then latency_peak else latency_off_peak
      let current_upload := stats.upload_speed.current
      let current_latency := stats.latency.current
      let score_u : ℚ :=
        if geFloat current_upload u_th.optimal then 4 / 10
        else if geFloat current_upload u_th.warning then 2 / 10
        else 0
      let score_l : ℚ :=
        if leFloat current_latency l_th.optimal then 6 / 10
        else if leFloat current_latency l_th.warning then 3 / 10
        else 0
      let health_score : ℚ := 0 + score_u + score_l
      let status :=
        if 8 / 10 ≤ health_score then "optimal"
        else if 5 / 10 ≤ health_score then "good"
        else if 3 / 10 ≤ health_score then "warning"
        else "critical"
      some { status := status, health_score := health_score, is_peak_hour := is_peak }

/-- Embedding of `get_recent_data` (predictor.py, lines 58-75): the range query result
(`none` models a query error), with an empty DataFrame turned into `None`. -/
def get_recent_data (query_result : Option (List MetricRow)) : Option (List MetricRow) :=
  match query_result with
  | none => none
  | some data => if data.isEmpty then none else some data

/-- A point of the `server_analysis` series as built by
`monitor_and_analyze`; `float(...)` of a NaN stays NaN, so the numeric
fields remain `Option ℚ`, and the two flags are written through `int(...)`
as 0/1. -/
structure ServerAnalysisPoint where
  current_upload : Option ℚ
  current_latency : Option ℚ
  avg_upload_5min : Option ℚ
  avg_latency_5min : Option ℚ
  health_status : String
  health_score : ℚ
  is_anomaly : ℤ
  is_peak_hour : ℤ
deriving Repr, DecidableEq

/-- Embedding of `monitor_and_analyze` (predictor.py, lines 148-184): fetch the window
through `get_recent_data`; if it is `None` or empty, return without writing;
otherwise compute the stats, the anomaly flag and the health analysis and
append one `server_analysis` point. Any exception inside the body is caught
and nothing is written, which covers the (unreachable on a non-empty
window) `none` branch of `analyze_server_health`. -/
def monitor_and_analyze (query_result : Option (List MetricRow)) :
    Option ServerAnalysisPoint :=
  match get_recent_data query_result with
  | none => none
  | some data =>
      if data.isEmpty then none
      else
        let stats := calculate_averages data
        let is_anomaly := detect_simple_anomalies stats
        match analyze_server_health data stats with
        | none => none
        | some ha =>
            some { current_upload := stats.upload_speed.current
                 , current_latency := stats.latency.current
                 , avg_upload_5min := stats.upload_speed.avg_5min
                 , avg_latency_5min := stats.latency.avg_5min
                 , health_status := ha.status
                 , health_score := ha.health_score
                 , is_anomaly := if is_anomaly then 1 else 0
                 , is_peak_hour := if ha.is_peak_hour then 1 else 0 }

/-- Modelled from the spec (section 4.7): the additive health-score formula
in the words of the specification, for given current values and cutoffs. -/
def spec_health_score (upload lat u_opt u_warn l_opt l_warn : ℚ) : ℚ :=
  (if u_opt ≤ upload then 4 / 10 else if u_warn ≤ upload then 2 / 10 else 0) +
  (if lat ≤ l_opt then 6 / 10 else if lat ≤ l_warn then 3 / 10 else 0)

/-- Modelled from the spec (section 4.7): the fixed score-to-status
breakpoints in the words of the specification. -/
def spec_status_of (score : ℚ) : String :=
  if 8 / 10 ≤ score then "optimal"
  else if 5 / 10 ≤ score then "good"
  else if 3 / 10 ≤ score then "warning"
  else "critical"

/-- Modelled from the spec (section 4.7): `is_peak_hour = hour_of(now) ∈
{9..17}`, a function of the time at which scoring happens. -/
def spec_is_peak_hour (now_hour : ℕ) : Bool := decide (9 ≤ now_hour ∧ now_hour ≤ 17)

/-- Modelled from the spec (section 4.5): the arithmetic mean of a list of
values. -/
def spec_arith_mean (xs : List ℚ) : ℚ := xs.sum / (xs.length : ℚ)

/-- Modelled from the spec (section 4.5): the Bessel-corrected sample
variance (divisor N - 1), the square of the sample standard deviation. -/
def spec_sample_variance (xs : List ℚ) : ℚ :=
  ((xs.map (fun x => (x - spec_arith_mean xs) ^ 2)).sum) / ((xs.length : ℚ) - 1)

/-- Selection `self.thresholds["upload"][period]` with `period` being `"peak"` or
`"off_peak"`. -/
def upload_cutoffs_for (is_peak : Bool) : CutoffRow :=
  if is_peak then upload_peak else upload_off_peak

/-- Selection `self.thresholds["latency"][period]` with `period` being `"peak"` or
`"off_peak"`. -/
def latency_cutoffs_for (is_peak : Bool) : CutoffRow :=
  if is_peak then latency_peak else latency_off_peak

/-- Bridge between the rational squared form used in the embedding and the
float test of the source: for a non-negative variance `v`,
`abs (c - m) > 2 * sqrt v` holds iff `(c - m) ^ 2 > 4 * v`. -/
theorem two_sqrt_lt_abs_iff (c m v : ℝ) (hv : 0 ≤ v) :
    2 * Real.sqrt v < |c - m| ↔ 4 * v < (c - m) ^ 2 := by
  have h4 : Real.sqrt (4 * v) = 2 * Real.sqrt v := by
    rw [show (4 : ℝ) * v = 2 ^ 2 * v by norm_num, Real.sqrt_mul (by positivity) v,
      Real.sqrt_sq (by norm_num)]
  rw [← h4, ← Real.sqrt_sq_eq_abs (c - m), Real.sqrt_lt_sqrt_iff (by positivity)]

/-- C1: a stats record in which `download_speed`, `upload_speed`,
`packets_sent` or `packets_recv` is negative is dropped by
`write_to_influxdb` (no point is appended to `network_metrics`), and
consequently every persisted `network_metrics` point has non-negative
`download_speed` and `upload_speed`. -/
theorem write_drops_negative_and_persists_nonneg (stats : StatsRecord) :
    ((stats.download_speed < 0 ∨ stats.upload_speed < 0 ∨
        stats.packets_sent < 0 ∨ stats.packets_recv < 0) →
      write_to_influxdb stats = none) ∧
    (∀ p : NetworkPoint, write_to_influxdb stats = some p →
      0 ≤ p.download_speed ∧ 0 ≤ p.upload_speed) := by
  constructor
  · intro h
    simp only [write_to_influxdb, if_pos h]
  · intro p hp
    by_cases h : stats.download_speed < 0 ∨ stats.upload_speed < 0 ∨
        stats.packets_sent < 0 ∨ stats.packets_recv < 0
    · rw [write_to_influxdb, if_pos h] at hp
      exact Option.noConfusion hp
    · have h' := h
      push_neg at h'
      obtain ⟨hd, hu, _, _⟩ := h'
      simp only [write_to_influxdb, if_neg h] at hp
      cases hl : stats.latency with
      | none => rw [hl] at hp; simp at hp
      | some l =>
          rw [hl] at hp
          obtain rfl := (Option.some.injEq _ _).mp hp
          exact ⟨hd, hu⟩

/-- C1 witness: a counter-reset record with `download_speed = -2` and
`upload_speed = -1` is dropped. -/
theorem write_drops_negative_and_persists_nonneg_witness :
    ((-2 : ℚ) < 0) ∧
      write_to_influxdb
        { download_speed := -2, upload_speed := -1, packets_sent := 100
        , packets_recv := 100, errors_in := 0, errors_out := 0, latency := some 10 } = none :=
  ⟨by norm_num,
    (write_drops_negative_and_persists_nonneg _).1 (Or.inl (by norm_num))⟩

/-- C2: when the network-stats sampler fails (`get_network_stats` returns
`None`), the collector tick does NOT skip and continue: the statement
`network_stats["latency"] = get_latency()` raises `TypeError` on `None`
before the `if network_stats` guard, the exception escapes the loop body
and the `while` loop terminates. -/
theorem collector_exits_loop_on_sample_failure :
    collector_tick none (some 10) = TickOutcome.loop_exit := rfl

/-- C3: when the latency probe fails (`get_latency` returns `None`) while
sampling succeeded with non-negative values, nothing is persisted for the
tick: `float(stats["latency"])` raises inside `write_to_influxdb`, the
exception is swallowed and no point is appended, instead of a record with
latency absent being written. -/
theorem probe_failure_drops_whole_record :
    collector_tick
        (some (get_network_stats
          { bytes_sent := 0, bytes_recv := 0, packets_sent := 0
          , packets_recv := 0, errin := 0, errout := 0 }
          { bytes_sent := 1000000, bytes_recv := 2000000, packets_sent := 10
          , packets_recv := 20, errin := 0, errout := 0 })) none
      = TickOutcome.skipped ∧
    write_to_influxdb
        { download_speed := 16, upload_speed := 8, packets_sent := 10
        , packets_recv := 20, errors_in := 0, errors_out := 0, latency := none }
      = none := by
  refine ⟨?_, rfl⟩
  have h : get_network_stats
      { bytes_sent := 0, bytes_recv := 0, packets_sent := 0
      , packets_recv := 0, errin := 0, errout := 0 }
      { bytes_sent := 1000000, bytes_recv := 2000000, packets_sent := 10
      , packets_recv := 20, errin := 0, errout := 0 } =
      { download_speed := 16, upload_speed := 8, packets_sent := 10
      , packets_recv := 20, errors_in := 0, errors_out := 0 } := by
    simp only [get_network_stats]
    norm_num
  rw [h]
  rfl

/-- C8: the sampler computes
`upload_mbps = (bytes_sent_2 - bytes_sent_1) * 8 / 1_000_000 / interval`
with the interval hard-coded to one second (`time.sleep(1)`), and
symmetrically for `download_mbps` from `bytes_recv`; for snapshots with
`bytes_sent_2 >= bytes_sent_1` the resulting upload speed is
non-negative. -/
theorem get_network_stats_formula (s1 s2 : NetIOCounters) :
    ((get_network_stats s1 s2).upload_speed =
      ((s2.bytes_sent : ℚ) - (s1.bytes_sent : ℚ)) * 8 / 1000000 / MEASUREMENT_INTERVAL) ∧
    ((get_network_stats s1 s2).download_speed =
      ((s2.bytes_recv : ℚ) - (s1.bytes_recv : ℚ)) * 8 / 1000000 / MEASUREMENT_INTERVAL) ∧
    (s1.bytes_sent ≤ s2.bytes_sent → 0 ≤ (get_network_stats s1 s2).upload_speed) := by
  refine ⟨by simp [get_network_stats, MEASUREMENT_INTERVAL],
    by simp [get_network_stats, MEASUREMENT_INTERVAL], ?_⟩
  intro h
  have hsub : (0 : ℚ) ≤ (s2.bytes_sent : ℚ) - (s1.bytes_sent : ℚ) := by
    rw [sub_nonneg]
    exact_mod_cast h
  simp only [get_network_stats]
  exact div_nonneg (mul_nonneg hsub (by norm_num)) (by norm_num)

/-- C8 witness: a concrete increasing snapshot pair gives a non-negative
upload speed. -/
theorem get_network_stats_formula_witness :
    (1000 ≤ 2000) ∧
      0 ≤ (get_network_stats
        { bytes_sent := 1000, bytes_recv := 0, packets_sent := 0
        , packets_recv := 0, errin := 0, errout := 0 }
        { bytes_sent := 2000, bytes_recv := 0, packets_sent := 0
        , packets_recv := 0, errin := 0, errout := 0 }).upload_speed :=
  ⟨by norm_num, (get_network_stats_formula _ _).2.2 (by norm_num)⟩

/-- C9: an analyzer tick whose analysis window is empty (the range query
returned no records) or whose query failed writes no `server_analysis`
point: the tick is a no-op. -/
theorem empty_window_writes_nothing :
    monitor_and_analyze (some []) = none ∧ monitor_and_analyze none = none :=
  ⟨rfl, rfl⟩

/-- C10: the write-boundary validation inspects only `download_speed`,
`upload_speed`, `packets_sent` and `packets_recv`: a record in which those
four are non-negative and latency is present is persisted with all fields
unchanged, whatever the signs of `errors_in`, `errors_out` and
`latency`. -/
theorem write_ignores_errors_and_latency (stats : StatsRecord) (l : ℚ)
    (hd : 0 ≤ stats.download_speed) (hu : 0 ≤ stats.upload_speed)
    (hp : 0 ≤ stats.packets_sent) (hq : 0 ≤ stats.packets_recv)
    (hl : stats.latency = some l) :
    write_to_influxdb stats = some
      { download_speed := stats.download_speed, upload_speed := stats.upload_speed
      , packets_sent := stats.packets_sent, packets_recv := stats.packets_recv
      , errors_in := stats.errors_in, errors_out := stats.errors_out
      , latency := l } := by
  have hcond : ¬(stats.download_speed < 0 ∨ stats.upload_speed < 0 ∨
      stats.packets_sent < 0 ∨ stats.packets_recv < 0) := by
    push_neg
    exact ⟨hd, hu, hp, hq⟩
  simp only [write_to_influxdb, if_neg hcond, hl]

/-- C10 witness: negative error totals and a negative latency pass the
write boundary unchanged. -/
theorem write_ignores_errors_and_latency_witness :
    write_to_influxdb
        { download_speed := 1, upload_speed := 2, packets_sent := 3
        , packets_recv := 4, errors_in := -5, errors_out := -7
        , latency := some (-3) }
      = some
        { download_speed := 1, upload_speed := 2, packets_sent := 3
        , packets_recv := 4, errors_in := -5, errors_out := -7, latency := -3 } :=
  write_ignores_errors_and_latency _ _ (by norm_num) (by norm_num) (by norm_num)
    (by norm_num) rfl

/-- C4: on a non-empty window with present current values, the health
analysis carries exactly the additive score of the specification, computed
against the cutoff row selected by the peak flag of the last record, and
the status obtained from the fixed `0.8 / 0.5 / 0.3` breakpoints. -/
theorem analyze_matches_spec_score (data : List MetricRow) (row : MetricRow)
    (hlast : data.getLast? = some row) (stats : StatsDict) (cu cl : ℚ)
    (hcu : stats.upload_speed.current = some cu)
    (hcl : stats.latency.current = some cl) :
    analyze_server_health data stats =
      some { status := spec_status_of (spec_health_score cu cl
               (upload_cutoffs_for (peak_hours row.time_hour)).optimal
               (upload_cutoffs_for (peak_hours row.time_hour)).warning
               (latency_cutoffs_for (peak_hours row.time_hour)).optimal
               (latency_cutoffs_for (peak_hours row.time_hour)).warning)
           , health_score := spec_health_score cu cl
               (upload_cutoffs_for (peak_hours row.time_hour)).optimal
               (upload_cutoffs_for (peak_hours row.time_hour)).warning
               (latency_cutoffs_for (peak_hours row.time_hour)).optimal
               (latency_cutoffs_for (peak_hours row.time_hour)).warning
           , is_peak_hour := peak_hours row.time_hour } := by
  simp only [analyze_server_health, hlast, hcu, hcl, geFloat, leFloat,
    decide_eq_true_eq, spec_health_score, spec_status_of, upload_cutoffs_for,
    latency_cutoffs_for, zero_add]

/-- C4 witness: the two spec examples at peak hour 14 (upload cutoffs
0.75 / 0.50, latency cutoffs 30 / 50): upload 0.80 with latency 25 scores
1.0 with status optimal, upload 0.40 with latency 90 scores 0.0 with status
critical. -/
theorem analyze_matches_spec_score_witness :
    analyze_server_health
        [{ time_hour := 14, upload_speed := some (8 / 10), latency := some 25 }]
        { upload_speed := { current := some (8 / 10), avg_5min := none, stdSq_5min := none }
        , latency := { current := some 25, avg_5min := none, stdSq_5min := none } }
      = some { status := "optimal", health_score := 1, is_peak_hour := true } ∧
    analyze_server_health
        [{ time_hour := 14, upload_speed := some (4 / 10), latency := some 90 }]
        { upload_speed := { current := some (4 / 10), avg_5min := none, stdSq_5min := none }
        , latency := { current := some 90, avg_5min := none, stdSq_5min := none } }
      = some { status := "critical", health_score := 0, is_peak_hour := true } := by
  constructor
  · rw [analyze_matches_spec_score
      [{ time_hour := 14, upload_speed := some (8 / 10), latency := some 25 }]
      { time_hour := 14, upload_speed := some (8 / 10), latency := some 25 } rfl
      { upload_speed := { current := some (8 / 10), avg_5min := none, stdSq_5min := none }
      , latency := { current := some 25, avg_5min := none, stdSq_5min := none } }
      (8 / 10) 25 rfl rfl]
    norm_num [spec_health_score, spec_status_of, upload_cutoffs_for, latency_cutoffs_for,
      upload_peak, latency_peak, peak_hours]
  · rw [analyze_matches_spec_score
      [{ time_hour := 14, upload_speed := some (4 / 10), latency := some 90 }]
      { time_hour := 14, upload_speed := some (4 / 10), latency := some 90 } rfl
      { upload_speed := { current := some (4 / 10), avg_5min := none, stdSq_5min := none }
      , latency := { current := some 90, avg_5min := none, stdSq_5min := none } }
      (4 / 10) 90 rfl rfl]
    norm_num [spec_health_score, spec_status_of, upload_cutoffs_for, latency_cutoffs_for,
      upload_peak, latency_peak, peak_hours]

/-- C5 counterexample: `is_peak_hour` is not a function of the time at
scoring. At a scoring moment in hour 18 (off-peak by the claim, witness
`spec_is_peak_hour 18 = false`) the trailing window may end with a record
from hour 17 (e.g. scoring at 18:01 with the last sample at 17:58), and the
code then reports `is_peak_hour = true`, because it reads the hour from
`current_data["_time"].iloc[-1]`, the last record of the window. -/
theorem is_peak_from_record_not_scoring_time :
    ((analyze_server_health
        [{ time_hour := 17, upload_speed := some 1, latency := some 10 }]
        { upload_speed := { current := some 1, avg_5min := none, stdSq_5min := none }
        , latency := { current := some 10, avg_5min := none, stdSq_5min := none } }).map
      HealthAnalysis.is_peak_hour = some true) ∧
    spec_is_peak_hour 18 = false :=
  ⟨rfl, rfl⟩

/-- C5 amended: `is_peak_hour` is determined from the hour of the
chronologically last record of the analysis window; it is true exactly when
that hour lies in 9..17, switching at 9 (inclusive) and 18 (exclusive). -/
theorem analyze_peak_from_last_record (data : List MetricRow) (row : MetricRow)
    (hlast : data.getLast? = some row) (stats : StatsDict) :
    (analyze_server_health data stats).map HealthAnalysis.is_peak_hour =
      some (decide (9 ≤ row.time_hour ∧ row.time_hour < 18)) := by
  simp only [analyze_server_health, hlast, Option.map_some', peak_hours]

/-- C5 amended witness: last-record hours 22 and 8 select the off-peak
table, hours 9 and 17 the peak table, hour 18 the off-peak table again. -/
theorem analyze_peak_from_last_record_witness :
    ((analyze_server_health [{ time_hour := 22, upload_speed := some 1, latency := some 10 }]
        { upload_speed := { current := some 1, avg_5min := none, stdSq_5min := none }
        , latency := { current := some 10, avg_5min := none, stdSq_5min := none } }).map
      HealthAnalysis.is_peak_hour = some false) ∧
    ((analyze_server_health [{ time_hour := 9, upload_speed := some 1, latency := some 10 }]
        { upload_speed := { current := some 1, avg_5min := none, stdSq_5min := none }
        , latency := { current := some 10, avg_5min := none, stdSq_5min := none } }).map
      HealthAnalysis.is_peak_hour = some true) ∧
    ((analyze_server_health [{ time_hour := 17, upload_speed := some 1, latency := some 10 }]
        { upload_speed := { current := some 1, avg_5min := none, stdSq_5min := none }
        , latency := { current := some 10, avg_5min := none, stdSq_5min := none } }).map
      HealthAnalysis.is_peak_hour = some true) ∧
    ((analyze_server_health [{ time_hour := 18, upload_speed := some 1, latency := some 10 }]
        { upload_speed := { current := some 1, avg_5min := none, stdSq_5min := none }
        , latency := { current := some 10, avg_5min := none, stdSq_5min := none } }).map
      HealthAnalysis.is_peak_hour = some false) ∧
    ((analyze_server_health [{ time_hour := 8, upload_speed := some 1, latency := some 10 }]
        { upload_speed := { current := some 1, avg_5min := none, stdSq_5min := none }
        , latency := { current := some 10, avg_5min := none, stdSq_5min := none } }).map
      HealthAnalysis.is_peak_hour = some false) := by
  refine ⟨?_, ?_, ?_, ?_, ?_⟩
  · rw [analyze_peak_from_last_record
      [{ time_hour := 22, upload_speed := some 1, latency := some 10 }]
      { time_hour := 22, upload_speed := some 1, latency := some 10 } rfl
      { upload_speed := { current := some 1, avg_5min := none, stdSq_5min := none }
      , latency := { current := some 10, avg_5min := none, stdSq_5min := none } }]
    rfl
  · rw [analyze_peak_from_last_record
      [{ time_hour := 9, upload_speed := some 1, latency := some 10 }]
      { time_hour := 9, upload_speed := some 1, latency := some 10 } rfl
      { upload_speed := { current := some 1, avg_5min := none, stdSq_5min := none }
      , latency := { current := some 10, avg_5min := none, stdSq_5min := none } }]
    rfl
  · rw [analyze_peak_from_last_record
      [{ time_hour := 17, upload_speed := some 1, latency := some 10 }]
      { time_hour := 17, upload_speed := some 1, latency := some 10 } rfl
      { upload_speed := { current := some 1, avg_5min := none, stdSq_5min := none }
      , latency := { current := some 10, avg_5min := none, stdSq_5min := none } }]
    rfl
  · rw [analyze_peak_from_last_record
      [{ time_hour := 18, upload_speed := some 1, latency := some 10 }]
      { time_hour := 18, upload_speed := some 1, latency := some 10 } rfl
      { upload_speed := { current := some 1, avg_5min := none, stdSq_5min := none }
      , latency := { current := some 10, avg_5min := none, stdSq_5min := none } }]
    rfl
  · rw [analyze_peak_from_last_record
      [{ time_hour := 8, upload_speed := some 1, latency := some 10 }]
      { time_hour := 8, upload_speed := some 1, latency := some 10 } rfl
      { upload_speed := { current := some 1, avg_5min := none, stdSq_5min := none }
      , latency := { current := some 10, avg_5min := none, stdSq_5min := none } }]
    rfl

/-- C6: on fully-present stats with non-negative variances, the anomaly
flag is true exactly when at least one of the two tracked metrics deviates
from its window mean by more than two window standard deviations, and with
both variances zero exactly when at least one current value differs from
its mean. -/
theorem anomaly_iff_two_sigma (c1 m1 v1 c2 m2 v2 : ℚ) (h1 : 0 ≤ v1) (h2 : 0 ≤ v2) :
    (detect_simple_anomalies
        { upload_speed := { current := some c1, avg_5min := some m1, stdSq_5min := some v1 }
        , latency := { current := some c2, avg_5min := some m2, stdSq_5min := some v2 } } = true
      ↔ (2 * Real.sqrt (v1 : ℝ) < |(c1 : ℝ) - (m1 : ℝ)| ∨
          2 * Real.sqrt (v2 : ℝ) < |(c2 : ℝ) - (m2 : ℝ)|)) ∧
    (v1 = 0 → v2 = 0 →
      (detect_simple_anomalies
          { upload_speed := { current := some c1, avg_5min := some m1, stdSq_5min := some v1 }
          , latency := { current := some c2, avg_5min := some m2, stdSq_5min := some v2 } } = true
        ↔ (c1 ≠ m1 ∨ c2 ≠ m2))) := by
  have key : ∀ (c m v : ℚ), 0 ≤ v →
      (metric_anomalous { current := some c, avg_5min := some m, stdSq_5min := some v } = true ↔
        2 * Real.sqrt (v : ℝ) < |(c : ℝ) - (m : ℝ)|) := by
    intro c m v hv
    rw [two_sqrt_lt_abs_iff _ _ _ (by exact_mod_cast hv)]
    simp only [metric_anomalous, decide_eq_true_eq]
    constructor
    · intro h; exact_mod_cast h
    · intro h; exact_mod_cast h
  constructor
  · simp only [detect_simple_anomalies, Bool.or_eq_true]
    rw [key c1 m1 v1 h1, key c2 m2 v2 h2]
  · intro hv1 hv2
    subst hv1; subst hv2
    have hsq : ∀ a b : ℚ, (4 * 0 < (a - b) ^ 2) ↔ a ≠ b := by
      intro a b
      rw [mul_zero]
      constructor
      · intro h hab
        rw [hab, sub_self] at h
        simp at h
      · intro h
        have hab : a - b ≠ 0 := sub_ne_zero.mpr h
        positivity
    simp only [detect_simple_anomalies, Bool.or_eq_true, metric_anomalous,
      decide_eq_true_eq]
    rw [hsq c1 m1, hsq c2 m2]

/-- C6 witness: with window mean 100 and standard deviation 10 (variance
100) for upload, a current value of 125 is anomalous; the instantiated
equivalence from the theorem plus the concrete evaluation of the
detector. -/
theorem anomaly_iff_two_sigma_witness :
    ((0 : ℚ) ≤ 100) ∧
    (detect_simple_anomalies
        { upload_speed := { current := some 125, avg_5min := some 100, stdSq_5min := some 100 }
        , latency := { current := some 100, avg_5min := some 100, stdSq_5min := some 100 } } = true) ∧
    (detect_simple_anomalies
        { upload_speed := { current := some 125, avg_5min := some 100, stdSq_5min := some 100 }
        , latency := { current := some 100, avg_5min := some 100, stdSq_5min := some 100 } } = true
      ↔ (2 * Real.sqrt ((100 : ℚ) : ℝ) < |((125 : ℚ) : ℝ) - ((100 : ℚ) : ℝ)| ∨
          2 * Real.sqrt ((100 : ℚ) : ℝ) < |((100 : ℚ) : ℝ) - ((100 : ℚ) : ℝ)|)) := by
  refine ⟨by norm_num, ?_,
    (anomaly_iff_two_sigma 125 100 100 100 100 100 (by norm_num) (by norm_num)).1⟩
  simp only [detect_simple_anomalies, metric_anomalous, Bool.or_eq_true,
    decide_eq_true_eq]
  left
  norm_num

/-- Helper: `iloc[-1]` of a mapped column is the field of the last
record. -/
theorem seriesLast_map_getLast (data : List MetricRow) (h : data ≠ [])
    (f : MetricRow → Option ℚ) : seriesLast (data.map f) = f (data.getLast h) := by
  rw [seriesLast, List.getLast?_map, List.getLast?_eq_getLast_of_ne_nil h]
  rfl

/-- Helper: the pandas mean over a column with at least one non-missing
value is the arithmetic mean of the non-missing values. -/
theorem seriesMean_eq (vals : List (Option ℚ)) (h : nonMissing vals ≠ []) :
    seriesMean vals = some (spec_arith_mean (nonMissing vals)) := by
  simp only [seriesMean, spec_arith_mean]
  rw [if_neg]
  simpa [List.length_eq_zero] using h

/-- Helper: the squared pandas std over a column with at least two
non-missing values is the Bessel-corrected sample variance. -/
theorem seriesStdSq_eq (vals : List (Option ℚ))
    (h2 : 2 ≤ (nonMissing vals).length) :
    seriesStdSq vals = some (spec_sample_variance (nonMissing vals)) := by
  simp only [seriesStdSq, spec_sample_variance, spec_arith_mean]
  rw [if_neg (by omega)]

/-- Helper: the squared pandas std over a column with fewer than two
non-missing values is NaN. -/
theorem seriesStdSq_short (vals : List (Option ℚ))
    (h2 : (nonMissing vals).length < 2) : seriesStdSq vals = none := by
  simp only [seriesStdSq]
  rw [if_pos h2]

/-- C7 counterexample: on a window with a single record, the std entry
computed by `calculate_averages` is NaN (absent), not the claimed 0:
pandas `.std()` with `ddof = 1` over one value is NaN. -/
theorem std_single_record_not_zero :
    ((calculate_averages
        [{ time_hour := 14, upload_speed := some 100, latency := some 20 }]).upload_speed.stdSq_5min
      = none) ∧
    ((calculate_averages
        [{ time_hour := 14, upload_speed := some 100, latency := some 20 }]).upload_speed.stdSq_5min
      ≠ some 0) := by
  have h : (calculate_averages
      [{ time_hour := 14, upload_speed := some 100, latency := some 20 }]).upload_speed.stdSq_5min
      = none := rfl
  exact ⟨h, by rw [h]; exact fun hc => Option.noConfusion hc⟩

/-- C7 amended: on a non-empty window, for each tracked metric, `current`
is the value of the metric on the chronologically last record, the mean is
the arithmetic mean over the non-missing values (when at least one is
present), and the std entry is the Bessel-corrected sample standard
deviation (divisor N - 1, here represented by its square, the sample
variance) over the non-missing values when at least 2 are present, and NaN
(absent, under which the anomaly comparison evaluates to false) rather than
0 when fewer than 2 non-missing values exist. -/
theorem calculate_averages_spec (data : List MetricRow) (h : data ≠ []) :
    ((calculate_averages data).upload_speed.current = (data.getLast h).upload_speed) ∧
    ((calculate_averages data).latency.current = (data.getLast h).latency) ∧
    (nonMissing (data.map MetricRow.upload_speed) ≠ [] →
      (calculate_averages data).upload_speed.avg_5min =
        some (spec_arith_mean (nonMissing (data.map MetricRow.upload_speed)))) ∧
    (nonMissing (data.map MetricRow.latency) ≠ [] →
      (calculate_averages data).latency.avg_5min =
        some (spec_arith_mean (nonMissing (data.map MetricRow.latency)))) ∧
    (2 ≤ (nonMissing (data.map MetricRow.upload_speed)).length →
      (calculate_averages data).upload_speed.stdSq_5min =
        some (spec_sample_variance (nonMissing (data.map MetricRow.upload_speed)))) ∧
    ((nonMissing (data.map MetricRow.upload_speed)).length < 2 →
      (calculate_averages data).upload_speed.stdSq_5min = none) ∧
    (2 ≤ (nonMissing (data.map MetricRow.latency)).length →
      (calculate_averages data).latency.stdSq_5min =
        some (spec_sample_variance (nonMissing (data.map MetricRow.latency)))) ∧
    ((nonMissing (data.map MetricRow.latency)).length < 2 →
      (calculate_averages data).latency.stdSq_5min = none) := by
  refine ⟨?_, ?_, ?_, ?_, ?_, ?_, ?_, ?_⟩
  · exact seriesLast_map_getLast data h MetricRow.upload_speed
  · exact seriesLast_map_getLast data h MetricRow.latency
  · exact fun hne => seriesMean_eq _ hne
  · exact fun hne => seriesMean_eq _ hne
  · exact fun h2 => seriesStdSq_eq _ h2
  · exact fun h2 => seriesStdSq_short _ h2
  · exact fun h2 => seriesStdSq_eq _ h2
  · exact fun h2 => seriesStdSq_short _ h2

/-- C7 amended witness: on a three-record window whose latency column has a
single non-missing value, the upload std entry is the sample variance of
the three upload values, the latency std entry is NaN, and `current` is the
last record's upload value. -/
theorem calculate_averages_spec_witness :
    (([{ time_hour := 10, upload_speed := some 1, latency := none }
      , { time_hour := 11, upload_speed := some 2, latency := some 5 }
      , { time_hour := 12, upload_speed := some 3, latency := none }] : List MetricRow) ≠ []) ∧
    ((calculate_averages
        [{ time_hour := 10, upload_speed := some 1, latency := none }
        , { time_hour := 11, upload_speed := some 2, latency := some 5 }
        , { time_hour := 12, upload_speed := some 3, latency := none }]).upload_speed.stdSq_5min
      = some (spec_sample_variance (nonMissing
          (([{ time_hour := 10, upload_speed := some 1, latency := none }
            , { time_hour := 11, upload_speed := some 2, latency := some 5 }
            , { time_hour := 12, upload_speed := some 3, latency := none }] : List MetricRow).map
            MetricRow.upload_speed)))) ∧
    ((calculate_averages
        [{ time_hour := 10, upload_speed := some 1, latency := none }
        , { time_hour := 11, upload_speed := some 2, latency := some 5 }
        , { time_hour := 12, upload_speed := some 3, latency := none }]).latency.stdSq_5min
      = none) ∧
    ((calculate_averages
        [{ time_hour := 10, upload_speed := some 1, latency := none }
        , { time_hour := 11, upload_speed := some 2, latency := some 5 }
        , { time_hour := 12, upload_speed := some 3, latency := none }]).upload_speed.current
      = some 3) := by
  have h : ([{ time_hour := 10, upload_speed := some 1, latency := none }
      , { time_hour := 11, upload_speed := some 2, latency := some 5 }
      , { time_hour := 12, upload_speed := some 3, latency := none }] : List MetricRow) ≠ [] := by
    simp
  obtain ⟨hcu, _, _, _, hsu, _, _, hsl⟩ := calculate_averages_spec _ h
  refine ⟨h, hsu (by decide), hsl (by decide), ?_⟩
  rw [hcu]
  rfl

end Infra
